import Mathlib

/-!
Shallow embedding of the mask-generation core of the Fashion-design XR tool
(src/components/Scene/GhostHead.tsx: GhostHead, MaskInstances, and the
math utilities getFacePoint / mapRange / checkZone / snapToMesh /
computePointCloudNormals), together with theorems settling the frozen
claims about it.  JavaScript numbers are modelled as real numbers; the
three.js vector/color helpers used by the source are modelled explicitly
below.
-/

namespace MaskTool

noncomputable section

/-- A three.js Vector3: three real components. -/
@[ext] structure Vec3 where
  x : ℝ
  y : ℝ
  z : ℝ

namespace Vec3

instance : Inhabited Vec3 := ⟨⟨0, 0, 0⟩⟩

/-- Componentwise addition (three.js Vector3.add / addVectors). -/
instance : Add Vec3 := ⟨fun a b => ⟨a.x + b.x, a.y + b.y, a.z + b.z⟩⟩

/-- Componentwise subtraction (three.js Vector3.subVectors). -/
instance : Sub Vec3 := ⟨fun a b => ⟨a.x - b.x, a.y - b.y, a.z - b.z⟩⟩

/-- three.js Vector3.multiplyScalar. -/
def smul (v : Vec3) (s : ℝ) : Vec3 := ⟨v.x * s, v.y * s, v.z * s⟩

/-- three.js Vector3.length. -/
def len (v : Vec3) : ℝ := Real.sqrt (v.x ^ 2 + v.y ^ 2 + v.z ^ 2)

/-- three.js Vector3.normalize, which divides by `length || 1`: a
zero-length vector is returned unchanged. -/
def normalize (v : Vec3) : Vec3 :=
  let l := v.len
  let d := if l = 0 then 1 else l
  ⟨v.x / d, v.y / d, v.z / d⟩

/-- three.js Vector3.distanceToSquared. -/
def distSq (a b : Vec3) : ℝ :=
  (a.x - b.x) ^ 2 + (a.y - b.y) ^ 2 + (a.z - b.z) ^ 2

/-- three.js Vector3.dot. -/
def dot (a b : Vec3) : ℝ := a.x * b.x + a.y * b.y + a.z * b.z

/-- three.js Vector3.crossVectors. -/
def cross (a b : Vec3) : Vec3 :=
  ⟨a.y * b.z - a.z * b.y, a.z * b.x - a.x * b.z, a.x * b.y - a.y * b.x⟩

/-- three.js Vector3.negate. -/
def negV (v : Vec3) : Vec3 := ⟨-v.x, -v.y, -v.z⟩

end Vec3

/-- Source `mapRange` (src utils/math):
`((value - inMin) * (outMax - outMin)) / (inMax - inMin) + outMin`. -/
def mapRange (value inMin inMax outMin outMax : ℝ) : ℝ :=
  ((value - inMin) * (outMax - outMin)) / (inMax - inMin) + outMin

/-- Source `getFacePoint` (src utils/math): base ellipsoid plus the four
sculpting terms (nose bridge, brow ridge, cheekbones, chin), in source
order.  The sequenced mutations of the source (`z += …`, `x *= …`) are
written as explicit rebindings. -/
def getFacePoint (u v headWidthFactor : ℝ) : Vec3 :=
  let w := headWidthFactor * 0.55
  let h := 1.10
  let d := 1.00
  let theta := mapRange u (-1) 1 (-(Real.pi / 1.6)) (Real.pi / 1.6)
  let phi := mapRange v (-1) 1 (Real.pi / 2.5) (-(Real.pi / 3))
  let x0 := w * Real.sin theta * Real.cos (phi * 0.5)
  let y0 := -h * Real.sin phi
  let z0 := d * Real.cos theta * Real.cos phi
  -- 1. Nose Bridge
  let noseDist := Real.sqrt (u ^ 2 + (v - (-0.15)) ^ 2)
  let z1 := if noseDist < 0.3 then z0 + 0.28 * (max 0 (1 - noseDist / 0.3)) ^ 2 else z0
  -- 2. Brow Ridge
  let browDist := |v - 0.25|
  let z2 := if browDist < 0.2 ∧ |u| < 0.7
            then z1 + 0.08 * Real.cos (browDist * Real.pi / 0.4) else z1
  -- 3. Cheekbones (guard `v < 0 && v > -0.5`, inner guard `cheekDist < 0.3`)
  let cheekDist := |(|u|) - 0.55|
  let x1 := if v < 0 ∧ -0.5 < v
            then (if cheekDist < 0.3
                  then x0 + (if 0 < u then (1 : ℝ) else -1) * 0.08 *
                        Real.cos (cheekDist * Real.pi / 0.6)
                  else x0)
            else x0
  let z3 := if v < 0 ∧ -0.5 < v
            then (if cheekDist < 0.3
                  then z2 + 0.05 * Real.cos (cheekDist * Real.pi / 0.6) else z2)
            else z2
  -- 4. Chin definition
  let z4 := if v < -0.7 then z3 + 0.05 else z3
  let x2 := if v < -0.7 then x1 * 0.8 else x1
  ⟨x2, y0, z4⟩

/-- Linear interpolation as named by the spec: `lerp(t, [a,b], [c,d])`
maps `a ↦ c`, `b ↦ d` linearly. -/
def lerp (t a b c d : ℝ) : ℝ := c + (d - c) * ((t - a) / (b - a))

/-- Reference surface as worded by the spec (claim C1): base ellipsoid
with `theta = lerp(u,[-1,1],[-pi/1.6,pi/1.6])`,
`phi = lerp(v,[-1,1],[pi/2.5,-pi/3])`, then, in this fixed order, the
nose-bridge term for `dist = norm (u, v+0.15) < 0.3`, the brow-ridge
term, the cheekbone terms with factor `sign(u)` for `v` in `(-0.5, 0)`,
and the chin term. -/
def specFacePoint (u v headWidthFactor : ℝ) : Vec3 :=
  let w := headWidthFactor * 0.55
  let h := 1.10
  let d := 1.00
  let theta := lerp u (-1) 1 (-(Real.pi / 1.6)) (Real.pi / 1.6)
  let phi := lerp v (-1) 1 (Real.pi / 2.5) (-(Real.pi / 3))
  let x0 := w * Real.sin theta * Real.cos (phi * 0.5)
  let y0 := -h * Real.sin phi
  let z0 := d * Real.cos theta * Real.cos phi
  let noseDist := Real.sqrt (u ^ 2 + (v + 0.15) ^ 2)
  let z1 := if noseDist < 0.3 then z0 + 0.28 * (max 0 (1 - noseDist / 0.3)) ^ 2 else z0
  let browDist := |v - 0.25|
  let z2 := if browDist < 0.2 ∧ |u| < 0.7
            then z1 + 0.08 * Real.cos (browDist * Real.pi / 0.4) else z1
  let cheekDist := |(|u|) - 0.55|
  let x1 := if (-0.5 < v ∧ v < 0) ∧ cheekDist < 0.3
            then x0 + Real.sign u * 0.08 * Real.cos (cheekDist * Real.pi / 0.6)
            else x0
  let z3 := if (-0.5 < v ∧ v < 0) ∧ cheekDist < 0.3
            then z2 + 0.05 * Real.cos (cheekDist * Real.pi / 0.6) else z2
  let z4 := if v < -0.7 then z3 + 0.05 else z3
  let x2 := if v < -0.7 then x1 * 0.8 else x1
  ⟨x2, y0, z4⟩

/-! ## Data model (src/types.ts) and three.js matrix helpers -/

inductive DistributionType | grid | spiral | random
deriving DecidableEq

inductive ZoneType | full | domino | respirator | jaw
deriving DecidableEq

inductive ShapeType | cone | sphere | box | torus | cylinder
deriving DecidableEq

inductive ColorMode | normal | depth | solid
deriving DecidableEq

/-- The MaskConfig record of src/types.ts (all fields; `density` is the
integer loop bound of the regeneration loop). -/
structure MaskConfigL where
  zone : ZoneType
  offset : ℝ
  headWidth : ℝ
  distribution : DistributionType
  density : ℕ
  symmetry : Bool
  shape : ShapeType
  scaleBase : ℝ
  scaleVar : ℝ
  colorMode : ColorMode
  primaryColor : String
  roughness : ℝ
  metalness : ℝ

/-- A three.js Matrix3 (row i, column j entries). -/
structure Mat3 where
  m11 : ℝ
  m12 : ℝ
  m13 : ℝ
  m21 : ℝ
  m22 : ℝ
  m23 : ℝ
  m31 : ℝ
  m32 : ℝ
  m33 : ℝ

/-- three.js Vector3.applyMatrix3. -/
def Mat3.apply (m : Mat3) (v : Vec3) : Vec3 :=
  ⟨m.m11 * v.x + m.m12 * v.y + m.m13 * v.z,
   m.m21 * v.x + m.m22 * v.y + m.m23 * v.z,
   m.m31 * v.x + m.m32 * v.y + m.m33 * v.z⟩

/-- A three.js Matrix4 (row i, column j entries). -/
structure Mat4 where
  n11 : ℝ
  n12 : ℝ
  n13 : ℝ
  n14 : ℝ
  n21 : ℝ
  n22 : ℝ
  n23 : ℝ
  n24 : ℝ
  n31 : ℝ
  n32 : ℝ
  n33 : ℝ
  n34 : ℝ
  n41 : ℝ
  n42 : ℝ
  n43 : ℝ
  n44 : ℝ

/-- The identity Matrix4. -/
def Mat4.id4 : Mat4 := ⟨1,0,0,0, 0,1,0,0, 0,0,1,0, 0,0,0,1⟩

/-- three.js Vector3.applyMatrix4 (with perspective divide; real division
by zero is 0 in Lean, which only matters for degenerate projective
matrices the source never builds). -/
def Mat4.applyV (m : Mat4) (v : Vec3) : Vec3 :=
  let w := 1 / (m.n41 * v.x + m.n42 * v.y + m.n43 * v.z + m.n44)
  ⟨(m.n11 * v.x + m.n12 * v.y + m.n13 * v.z + m.n14) * w,
   (m.n21 * v.x + m.n22 * v.y + m.n23 * v.z + m.n24) * w,
   (m.n31 * v.x + m.n32 * v.y + m.n33 * v.z + m.n34) * w⟩

/-- three.js Matrix3.getNormalMatrix: the inverse transpose of the
upper-left 3x3 block, i.e. the cofactor matrix divided by the
determinant (a zero determinant yields the zero matrix, as in
three.js Matrix3.invert). -/
def Mat4.normalMatrix (m : Mat4) : Mat3 :=
  let a11 := m.n11
  let a12 := m.n12
  let a13 := m.n13
  let a21 := m.n21
  let a22 := m.n22
  let a23 := m.n23
  let a31 := m.n31
  let a32 := m.n32
  let a33 := m.n33
  let det := a11 * (a22 * a33 - a23 * a32) - a12 * (a21 * a33 - a23 * a31)
      + a13 * (a21 * a32 - a22 * a31)
  ⟨(a22 * a33 - a23 * a32) / det, -(a21 * a33 - a23 * a31) / det,
   (a21 * a32 - a22 * a31) / det,
   -(a12 * a33 - a13 * a32) / det, (a11 * a33 - a13 * a31) / det,
   -(a11 * a32 - a12 * a31) / det,
   (a12 * a23 - a13 * a22) / det, -(a11 * a23 - a13 * a21) / det,
   (a11 * a22 - a12 * a21) / det⟩

/-- A target BufferGeometry: its position attribute (list of vertices)
and optional normal attribute. -/
structure Geometry where
  positions : List Vec3
  normals : Option (List Vec3)

/-- A resolved surface point with outward normal. -/
structure SurfaceSample where
  pos : Vec3
  norm : Vec3

/-! ## SpatialSnapper (source snapToMesh) -/

/-- The stride of snapToMesh:
`Math.floor(Math.max(1, posAttribute.count / 2000))`. -/
def strideOf (count : ℕ) : ℕ := max 1 (count / 2000)

/-- The index sequence visited by the strided loop
`for (i = 0; i < count; i += step)`. -/
def strideIdx (count : ℕ) : List ℕ :=
  (List.range count).filter (fun i => i % strideOf count = 0)

/-- The nearest-vertex scan of snapToMesh: fold over the strided indices
tracking `(bestIndex, minDistanceSq)`, starting at `(-1, Infinity)`
(`none` models Infinity, which every real distance compares below). -/
def snapScan (target : Vec3) (g : Geometry) (mw : Mat4) : Int × Option ℝ :=
  (strideIdx g.positions.length).foldl
    (fun acc i =>
      let worldPos := mw.applyV (g.positions.getD i default)
      let dSq := Vec3.distSq target worldPos
      match acc.2 with
      | none => ((i : Int), some dSq)
      | some m => if dSq < m then ((i : Int), some dSq) else acc)
    (-1, none)

/-- Source snapToMesh: strided nearest-neighbor search over the vertex
buffer; on success the best vertex's world position and world normal
(falling back to the normalized position when there is no normal
attribute); if no vertex was visited (`bestIndex === -1`), the original
target and its normalized direction. -/
def snapToMesh (target : Vec3) (g : Geometry) (mw : Mat4) : SurfaceSample :=
  let scan := snapScan target g mw
  if scan.1 = -1 then ⟨target, target.normalize⟩
  else
    let bi := scan.1.toNat
    let finalPos := mw.applyV (g.positions.getD bi default)
    let finalNorm :=
      match g.normals with
      | some ns => ((mw.normalMatrix).apply (ns.getD bi default)).normalize
      | none => finalPos.normalize
    ⟨finalPos, finalNorm⟩

/-! ## ZoneMask (source checkZone) -/

/-- Source checkZone: per-zone predicate on the parametric coordinates.
The domino branch guards the ocular band and then rejects the two
circular eye holes (early `return false` rendered as a conditional
proposition). -/
def checkZone (u v : ℝ) (zone : ZoneType) : Prop :=
  match zone with
  | .full => True
  | .domino =>
      if 0.1 < v ∧ v < 0.6 ∧ |u| < 0.85 then
        ¬ (Real.sqrt ((u - (-0.4)) ^ 2 + (v - 0.35) ^ 2) < 0.15 ∨
           Real.sqrt ((u - 0.4) ^ 2 + (v - 0.35) ^ 2) < 0.15)
      else False
  | .respirator => v < -0.1 ∧ -0.8 < v ∧ |u| < 0.6
  | .jaw => v < -0.4 ∨ (0.7 < |u| ∧ v < 0)

/-! ## PlacementEngine (source MaskInstances useLayoutEffect) -/

/-- The seeded sine-hash of the regeneration loop (`seed = 99`):
`x = sin(seed + offset) * 10000; return x - floor(x)`.
`Int.fract x` is definitionally `x - floor x`. -/
def jsRandom (o : ℝ) : ℝ := Int.fract (Real.sin (99 + o) * 10000)

/-- Step 1 of the placement loop: the candidate parametric coordinate
for index `i` under the chosen distribution law (source lines computing
`u`, `v`).  `Nat.sqrt` is `Math.floor(Math.sqrt(count))`. -/
def candidateUV (distribution : DistributionType) (density i : ℕ) : ℝ × ℝ :=
  match distribution with
  | .grid =>
      let dim := Nat.sqrt density
      let row := i / dim
      let col := i % dim
      (mapRange (col : ℝ) 0 (dim : ℝ) (-1) 1, mapRange (row : ℝ) 0 (dim : ℝ) (-1) 1)
  | .spiral =>
      let angle := (i : ℝ) * 2.39996
      let r := Real.sqrt (i : ℝ) / Real.sqrt (density : ℝ)
      (r * Real.cos angle, r * Real.sin angle * 1.2)
  | .random =>
      (mapRange (jsRandom (i : ℝ)) 0 1 (-1) 1,
       mapRange (jsRandom ((i : ℝ) + 1000)) 0 1 (-1) 1)

/-- A three.js Color, recorded as the constructor call the source makes
(hex string set, setHSL, or setRGB). -/
inductive ColorV
  | hexC (s : String)
  | hslC (h s l : ℝ)
  | rgbC (r g b : ℝ)
deriving DecidableEq

/-- The color derivation of the placement loop (source lines 233-240):
solid takes the primary color, depth is a fixed-hue HSL color with
lightness `mapRange(pFinal.z, 0, 1.5, 0.2, 1.0) * 0.8`, normal remaps
the normal components. -/
def deriveColor (mode : ColorMode) (primaryColor : String)
    (pFinal nrm : Vec3) : ColorV :=
  match mode with
  | .solid => .hexC primaryColor
  | .depth => .hslC 0.5 0.8 (mapRange pFinal.z 0 1.5 0.2 1.0 * 0.8)
  | .normal => .rgbC (nrm.x * 0.5 + 0.5) (nrm.y * 0.5 + 0.5) (nrm.z * 0.5 + 0.5)

/-- One entry of `userData.instances`: the rest-pose data stored per
accepted sample (position, normal, scale, color; the cached matrix is
determined by these three transform components and is not re-modelled). -/
structure OrnamentInstance where
  position : Vec3
  normal : Vec3
  scale : ℝ
  color : ColorV

instance : Inhabited OrnamentInstance := ⟨⟨default, default, 0, .rgbC 0 0 0⟩⟩

/-- The mirrored partner pushed by the symmetry branch: position and
normal with `x` negated, same scale and color. -/
def mirrorInst (inst : OrnamentInstance) : OrnamentInstance :=
  { position := ⟨-inst.position.x, inst.position.y, inst.position.z⟩
    normal := ⟨-inst.normal.x, inst.normal.y, inst.normal.z⟩
    scale := inst.scale
    color := inst.color }

open scoped Classical in
/-- The instance built by the placement loop for an accepted index `i`:
surface resolution (snap to mesh when present, else the analytic
surface with its derived normal and chin-tip override), offset along
the normal, scale from the seeded hash, and color derivation. -/
def acceptedInstance (cfg : MaskConfigL) (mesh : Option Geometry)
    (mw : Mat4) (i : ℕ) : OrnamentInstance :=
  let uv := candidateUV cfg.distribution cfg.density i
  let u := uv.1
  let v := uv.2
  let pMath := getFacePoint u v cfg.headWidth
  let sn : Vec3 × Vec3 :=
    match mesh with
    | some g =>
        let s := snapToMesh pMath g mw
        (s.pos, s.norm)
    | none =>
        let n0 := Vec3.normalize ⟨pMath.x, pMath.y * 0.5, pMath.z⟩
        (pMath, if 0.8 < pMath.z ∧ |pMath.x| < 0.2 then (⟨0, 0, 1⟩ : Vec3) else n0)
  let nrm := sn.2
  let pFinal := sn.1 + nrm.smul cfg.offset
  let noiseVal := jsRandom ((i : ℝ) * 0.1)
  let scale := cfg.scaleBase + noiseVal * cfg.scaleVar
  let color := deriveColor cfg.colorMode cfg.primaryColor pFinal nrm
  { position := pFinal, normal := nrm, scale := scale, color := color }

open scoped Classical in
/-- The body of the placement loop for index `i`: zone filtering, eye
cutout, then the accepted instance and the optional mirrored push.
Yields the 0, 1 or 2 instances appended for this index. -/
def placeAt (cfg : MaskConfigL) (mesh : Option Geometry) (mw : Mat4)
    (i : ℕ) : List OrnamentInstance :=
  let uv := candidateUV cfg.distribution cfg.density i
  let u := uv.1
  let v := uv.2
  if ¬ checkZone u v cfg.zone then []
  else if (cfg.zone = .full ∨ cfg.zone = .domino) ∧
      (Real.sqrt ((u - (-0.35)) ^ 2 + (v - 0.35) ^ 2) < 0.12 ∨
       Real.sqrt ((u - 0.35) ^ 2 + (v - 0.35) ^ 2) < 0.12) then []
  else
    let inst := acceptedInstance cfg mesh mw i
    inst :: (if cfg.symmetry then [mirrorInst inst] else [])

/-- The placement loop up to index `n` (exclusive), in loop order. -/
def genLoop (cfg : MaskConfigL) (mesh : Option Geometry) (mw : Mat4) :
    ℕ → List OrnamentInstance
  | 0 => []
  | n + 1 => genLoop cfg mesh mw n ++ placeAt cfg mesh mw n

/-- The full regeneration step of MaskInstances' useLayoutEffect: the
InstanceSet (`userData.instances`) it publishes. -/
def genInstances (cfg : MaskConfigL) (mesh : Option Geometry) (mw : Mat4) :
    List OrnamentInstance :=
  genLoop cfg mesh mw cfg.density

/-- DEFAULT_CONFIG of src/types.ts (density 400, spiral, symmetry on,
depth color mode). -/
def defaultConfig : MaskConfigL :=
  { zone := .full
    offset := 0.15
    headWidth := 1.45
    distribution := .spiral
    density := 400
    symmetry := true
    shape := .cone
    scaleBase := 0.08
    scaleVar := 0.5
    colorMode := .depth
    primaryColor := "#00ff9d"
    roughness := 0.2
    metalness := 0.8 }

/-- The default configuration at a small density (2), used to
instantiate universally quantified results on concrete inputs. -/
def smallConfig : MaskConfigL := { defaultConfig with density := 2 }

/-- A configuration that probes the Depth color rule on a snapped mesh:
grid distribution at density 1 (single candidate, the corner (-1,-1)),
zero offset, no symmetry, colorMode depth. -/
def cfgDepthTest : MaskConfigL :=
  { zone := .full
    offset := 0
    headWidth := 1.45
    distribution := .grid
    density := 1
    symmetry := false
    shape := .cone
    scaleBase := 0.08
    scaleVar := 0
    colorMode := .depth
    primaryColor := "#00ff9d"
    roughness := 0.2
    metalness := 0.8 }

/-- A single-vertex target mesh whose only vertex sits at z = 1.5. -/
def meshZ15 : Geometry := ⟨[⟨0, 0, 1.5⟩], none⟩

/-- A list of instances consisting of consecutive pairs: each accepted
instance immediately followed by its mirrored partner (position and
normal with `x` negated, same scale and color). -/
inductive PairedMirrored : List OrnamentInstance → Prop
  | nil : PairedMirrored []
  | cons (a : OrnamentInstance) (l : List OrnamentInstance) :
      PairedMirrored l → PairedMirrored (a :: mirrorInst a :: l)

/-! ## BindingEngine (source MaskInstances useFrame) -/

/-- One entry of the bind table: which landmark an instance is anchored
to, the rigid offset from landmark to instance, and the rest position. -/
structure AnchorBinding where
  landmarkIndex : Int
  offset : Vec3
  basePos : Vec3

instance : Inhabited AnchorBinding := ⟨⟨-1, default, default⟩⟩

open scoped Classical in
/-- The nearest-landmark scan of the bind phase: walk the cloud tracking
`(closestIndex, minDist)`, starting at `(-1, Infinity)` (`none` models
Infinity, below which every real squared distance compares). -/
def nearestAux (pos : Vec3) : List Vec3 → ℕ → Int → Option ℝ → Int
  | [], _, best, _ => best
  | lm :: rest, k, best, minD =>
      let d := Vec3.distSq pos lm
      match minD with
      | none => nearestAux pos rest (k + 1) (k : Int) (some d)
      | some m =>
          if d < m then nearestAux pos rest (k + 1) (k : Int) (some d)
          else nearestAux pos rest (k + 1) best (some m)

/-- The landmark index the bind phase picks for a rest position. -/
def nearestLandmarkIdx (pos : Vec3) (landmarks : List Vec3) : Int :=
  nearestAux pos landmarks 0 (-1) none

/-- The bind phase (source lines 297-321): one AnchorBinding per
instance, anchored at the nearest landmark, with
`offset = position - landmarks[closestIndex]`.  A `-1` index (possible
only on an empty cloud, which the frame guard already excluded) would
read `undefined` in the source; here the `getD` default stands in, and
the in-bounds theorem shows it is never taken. -/
def bindAnchors (landmarks : List Vec3)
    (instanceData : List OrnamentInstance) : List AnchorBinding :=
  instanceData.map fun inst =>
    let closestIndex := nearestLandmarkIdx inst.position landmarks
    let anchorPoint := landmarks.getD closestIndex.toNat default
    { landmarkIndex := closestIndex
      offset := inst.position - anchorPoint
      basePos := inst.position }

/-- The per-instance matrix written by the update phase, recorded by its
components: translated position, rest scale, and the rest normal whose
quaternion (`setFromUnitVectors(up, normal)`) gives the rotation. -/
structure WrittenTransform where
  position : Vec3
  scale : ℝ
  rotNormal : Vec3

/-- The update phase (source lines 324-373): for each binding at slot
`idx`, position `currentLandmark + offset`, rest scale and rest
rotation from `instanceData[idx]`. -/
def updateTransforms (landmarks : List Vec3)
    (instanceData : List OrnamentInstance)
    (anchors : List AnchorBinding) : List WrittenTransform :=
  anchors.enum.map fun p =>
    let idx := p.1
    let anchor := p.2
    let currentLandmark := landmarks.getD anchor.landmarkIndex.toNat default
    let instOriginal := instanceData.getD idx default
    { position := currentLandmark + anchor.offset
      scale := instOriginal.scale
      rotNormal := instOriginal.normal }

/-- The mutable state the useFrame callback owns: the bind table
(`anchorsRef`, `none` = Unbound) and the last written instance
transforms. -/
structure FrameState where
  anchors : Option (List AnchorBinding)
  transforms : List WrittenTransform

/-- One useFrame tick: the empty-landmark guard returns with the state
untouched; an Unbound state binds (and returns before updating any
transform); a Bound state re-writes the transforms. -/
def frameStep (instanceData : List OrnamentInstance)
    (landmarks : List Vec3) (s : FrameState) : FrameState :=
  if landmarks.isEmpty then s
  else
    match s.anchors with
    | none => { s with anchors := some (bindAnchors landmarks instanceData) }
    | some anchors =>
        { s with transforms := updateTransforms landmarks instanceData anchors }

/-- The `anchorsRef.current = null` reset the regeneration effect
performs (source lines 161-165). -/
def regenerateReset (s : FrameState) : FrameState := { s with anchors := none }

/-! ## NormalEstimator (source computePointCloudNormals) -/

/-- Point `i` of a flattened xyz position array (out-of-range reads give
0, which never happens for `i < length/3` on well-formed triples). -/
def pointAt (positions : List ℝ) (i : ℕ) : Vec3 :=
  ⟨positions.getD (i * 3) 0, positions.getD (i * 3 + 1) 0,
   positions.getD (i * 3 + 2) 0⟩

open scoped Classical in
/-- Insert into a distance-sorted neighbor list, after any equal
distance (matching the stable JS sort by `a.dist - b.dist`). -/
def insertByDist (a : ℕ × ℝ) : List (ℕ × ℝ) → List (ℕ × ℝ)
  | [] => [a]
  | b :: t => if a.2 < b.2 then a :: b :: t else b :: insertByDist a t

/-- The k-nearest-neighbor selection of computePointCloudNormals
(`k = 6`): the source's push/sort/pop loop maintains exactly the up to
six smallest-distance entries in stable distance order, which is the
stable insertion sort of all other indices truncated to six. -/
def neighborsOf (positions : List ℝ) (count i : ℕ) : List (ℕ × ℝ) :=
  ((((List.range count).filter (fun j => j ≠ i)).map
      (fun j => (j, Vec3.distSq (pointAt positions i) (pointAt positions j)))).foldl
    (fun acc a => insertByDist a acc) []).take 6

open scoped Classical in
/-- The normal for point `i`: with at least two neighbors, the
normalized cross product of the difference vectors to the two nearest,
flipped outward; otherwise the normalized point position (spherical
fallback). -/
def normalAt (positions : List ℝ) (i : ℕ) : Vec3 :=
  let count := positions.length / 3
  let p1 := pointAt positions i
  let neighbors := neighborsOf positions count i
  if 2 ≤ neighbors.length then
    let n1 := neighborsOf positions count i |>.getD 0 (0, 0)
    let n2 := neighborsOf positions count i |>.getD 1 (0, 0)
    let p2 := pointAt positions n1.1
    let p3 := pointAt positions n2.1
    let v1 := p2 - p1
    let v2 := p3 - p1
    let n := (Vec3.cross v1 v2).normalize
    if Vec3.dot n p1 < 0 then n.negV else n
  else
    p1.normalize

/-- Source computePointCloudNormals: one normal per point of the
flattened cloud (`count = positions.length / 3`). -/
def computePointCloudNormals (positions : List ℝ) : List Vec3 :=
  (List.range (positions.length / 3)).map (normalAt positions)

/-- A concrete three-point cloud (flattened) used to test the
NormalEstimator boundary case: points (0,0,1), (0,0,2), (0,3,0). -/
def cloud3 : List ℝ := [0, 0, 1, 0, 0, 2, 0, 3, 0]

/-! ## Theorems -/

@[simp] theorem Vec3.add_def (a b : Vec3) :
    a + b = ⟨a.x + b.x, a.y + b.y, a.z + b.z⟩ := rfl

@[simp] theorem Vec3.sub_def (a b : Vec3) :
    a - b = ⟨a.x - b.x, a.y - b.y, a.z - b.z⟩ := rfl

/-- `lerp` agrees with the source's `mapRange`. -/
theorem lerp_eq_mapRange (t a b c d : ℝ) :
    lerp t a b c d = mapRange t a b c d := by
  unfold lerp mapRange
  ring

/-- On any real input with nonzero first argument, the spec's `sign`
agrees with the source's ternary `u > 0 ? 1 : -1`. -/
theorem sign_eq_ite (w : ℝ) (hw : w ≠ 0) :
    Real.sign w = if 0 < w then (1 : ℝ) else -1 := by
  rcases hw.lt_or_lt with h | h
  · rw [Real.sign_of_neg h, if_neg (not_lt_of_gt h)]
  · rw [Real.sign_of_pos h, if_pos h]

/-- Claim C1: for every (u, v) in [-1,1]x[-1,1] and every
headWidthFactor, the source's getFacePoint equals the spec's closed-form
reference surface (base ellipsoid followed by nose-bridge, brow-ridge,
cheekbone and chin terms in that fixed order). -/
theorem claim1_getFacePoint_matches_spec (u v headWidthFactor : ℝ)
    (hu1 : -1 ≤ u) (hu2 : u ≤ 1) (hv1 : -1 ≤ v) (hv2 : v ≤ 1) :
    getFacePoint u v headWidthFactor = specFacePoint u v headWidthFactor := by
  unfold getFacePoint specFacePoint
  simp only [← lerp_eq_mapRange, sub_neg_eq_add]
  by_cases hu0 : u = 0
  · have hcdf : ¬ (|(|u|) - 0.55| < (0.3 : ℝ)) := by
      rw [hu0, abs_zero, zero_sub, abs_neg,
        abs_of_pos (by norm_num : (0 : ℝ) < 0.55)]
      norm_num
    simp [hcdf]
  · rw [sign_eq_ite u hu0]
    by_cases hv0 : v < 0 <;> by_cases hv5 : (-0.5 : ℝ) < v <;>
      by_cases hcd : |(|u|) - 0.55| < (0.3 : ℝ) <;> simp [hv0, hv5, hcd]

/-- Witness for claim C1 at (u, v, headWidthFactor) = (0, 0, 1). -/
theorem claim1_witness :
    ((-1 : ℝ) ≤ 0 ∧ (0 : ℝ) ≤ 1) ∧ getFacePoint 0 0 1 = specFacePoint 0 0 1 :=
  ⟨by norm_num,
   claim1_getFacePoint_matches_spec 0 0 1 (by norm_num) (by norm_num)
     (by norm_num) (by norm_num)⟩

/-- Claim C9: snapToMesh fails closed on an empty mesh: with zero
vertices it returns the original target position and the normalized
direction of the target as normal. -/
theorem claim9_snap_empty_mesh (target : Vec3) (g : Geometry) (mw : Mat4)
    (h : g.positions.length = 0) :
    snapToMesh target g mw = ⟨target, target.normalize⟩ := by
  unfold snapToMesh snapScan strideIdx
  rw [h]
  simp

/-- Witness for claim C9: an explicitly empty geometry and the target
point (1, 2, 2). -/
theorem claim9_witness :
    (Geometry.mk [] none).positions.length = 0 ∧
      snapToMesh ⟨1, 2, 2⟩ ⟨[], none⟩ Mat4.id4
        = ⟨⟨1, 2, 2⟩, Vec3.normalize ⟨1, 2, 2⟩⟩ :=
  ⟨rfl, claim9_snap_empty_mesh ⟨1, 2, 2⟩ ⟨[], none⟩ Mat4.id4 rfl⟩

/-- Claim C2: PlacementEngine generation is deterministic: two runs of
the regeneration step on the same configuration and the same optional
target mesh/transform produce identical InstanceSets — the same
realized count and, at every index, the same position, normal, scale
and color. -/
theorem claim2_generation_deterministic (cfg : MaskConfigL)
    (mesh : Option Geometry) (mw : Mat4) (r1 r2 : List OrnamentInstance)
    (h1 : r1 = genInstances cfg mesh mw) (h2 : r2 = genInstances cfg mesh mw) :
    r1.length = r2.length ∧
      ∀ i : ℕ,
        (r1.getD i default).position = (r2.getD i default).position ∧
        (r1.getD i default).normal = (r2.getD i default).normal ∧
        (r1.getD i default).scale = (r2.getD i default).scale ∧
        (r1.getD i default).color = (r2.getD i default).color := by
  subst h1
  subst h2
  exact ⟨rfl, fun _ => ⟨rfl, rfl, rfl, rfl⟩⟩

/-- Witness for claim C2: two runs at the default configuration with no
target mesh. -/
theorem claim2_witness :
    (genInstances defaultConfig none Mat4.id4).length
        = (genInstances defaultConfig none Mat4.id4).length ∧
      ∀ i : ℕ,
        ((genInstances defaultConfig none Mat4.id4).getD i default).position
            = ((genInstances defaultConfig none Mat4.id4).getD i default).position ∧
        ((genInstances defaultConfig none Mat4.id4).getD i default).normal
            = ((genInstances defaultConfig none Mat4.id4).getD i default).normal ∧
        ((genInstances defaultConfig none Mat4.id4).getD i default).scale
            = ((genInstances defaultConfig none Mat4.id4).getD i default).scale ∧
        ((genInstances defaultConfig none Mat4.id4).getD i default).color
            = ((genInstances defaultConfig none Mat4.id4).getD i default).color :=
  claim2_generation_deterministic defaultConfig none Mat4.id4
    (genInstances defaultConfig none Mat4.id4)
    (genInstances defaultConfig none Mat4.id4) rfl rfl

/-- Counterexample to claim C4: a frame with an empty landmark cloud
does NOT drop the AnchorBinding table — the useFrame callback returns
early and the table survives (here: a bound state with one anchor
stays bound). -/
theorem claim4_counterexample :
    (frameStep [default] []
        ⟨some [⟨0, ⟨0, 0, 0⟩, ⟨0, 0, 0⟩⟩], []⟩).anchors ≠ none := by
  simp [frameStep]

/-- Claim C4 as amended: on a zero-face frame the useFrame callback
leaves the state untouched (the AnchorBinding table is retained and
transform updates are suppressed, so last written transforms persist);
a later non-empty frame does not re-run the bind phase but resumes the
update phase with the retained bindings; the table is dropped (forcing
a re-bind) only by the regeneration effect. -/
theorem claim4_empty_frame_retains_bindings :
    (∀ (instanceData : List OrnamentInstance) (s : FrameState),
        frameStep instanceData [] s = s) ∧
      (∀ (instanceData : List OrnamentInstance) (s : FrameState)
          (landmarks : List Vec3) (anchors : List AnchorBinding),
          landmarks ≠ [] → s.anchors = some anchors →
          frameStep instanceData landmarks s
            = { s with transforms := updateTransforms landmarks instanceData anchors }) ∧
      (∀ s : FrameState, (regenerateReset s).anchors = none) := by
  refine ⟨fun instanceData s => by simp [frameStep], ?_, fun s => rfl⟩
  rintro instanceData ⟨oa, tr⟩ landmarks anchors hne hsome
  have hn : ¬ (landmarks.isEmpty = true) := by
    simpa [List.isEmpty_iff] using hne
  simp only at hsome
  subst hsome
  simp [frameStep, hn]

/-- Witness for claim C4's amended statement at concrete states: an
empty frame on a bound state, a non-empty frame on a bound state, and
a regeneration reset. -/
theorem claim4_witness :
    frameStep ([] : List OrnamentInstance) []
        ⟨some [], []⟩ = (⟨some [], []⟩ : FrameState) ∧
      frameStep ([] : List OrnamentInstance) [⟨1, 0, 0⟩] ⟨some [], []⟩
        = (⟨some [], updateTransforms [⟨1, 0, 0⟩] [] []⟩ : FrameState) ∧
      (regenerateReset ⟨some [], []⟩).anchors = none := by
  obtain ⟨h1, h2, h3⟩ := claim4_empty_frame_retains_bindings
  exact ⟨h1 [] ⟨some [], []⟩,
    h2 [] ⟨some [], []⟩ [⟨1, 0, 0⟩] [] (by simp) rfl,
    h3 ⟨some [], []⟩⟩

/-- Bounds invariant of the nearest-landmark scan: starting from a best
index already in `[0, k)`, the scan returns an index in
`[0, k + remaining)`. -/
theorem nearestAux_bounds (pos : Vec3) (rest : List Vec3) :
    ∀ (k : ℕ) (best : Int) (minD : Option ℝ),
      0 ≤ best → best < (k : Int) →
      0 ≤ nearestAux pos rest k best minD ∧
        nearestAux pos rest k best minD < (k : Int) + (rest.length : Int) := by
  induction rest with
  | nil =>
      intro k best minD h0 hk
      unfold nearestAux
      exact ⟨h0, by simpa using hk⟩
  | cons lm rest ih =>
      intro k best minD h0 hk
      cases minD with
      | none =>
          simp only [nearestAux, List.length_cons]
          have h := ih (k + 1) (k : Int) (some (Vec3.distSq pos lm))
            (Int.natCast_nonneg k) (by exact_mod_cast Nat.lt_succ_self k)
          refine ⟨h.1, ?_⟩
          have h2 := h.2
          push_cast at h2 ⊢
          linarith
      | some m =>
          simp only [nearestAux, List.length_cons]
          by_cases hlt : Vec3.distSq pos lm < m
          · rw [if_pos hlt]
            have h := ih (k + 1) (k : Int) (some (Vec3.distSq pos lm))
              (Int.natCast_nonneg k) (by exact_mod_cast Nat.lt_succ_self k)
            refine ⟨h.1, ?_⟩
            have h2 := h.2
            push_cast at h2 ⊢
            linarith
          · rw [if_neg hlt]
            have h := ih (k + 1) best (some m) h0
              (lt_trans hk (by exact_mod_cast Nat.lt_succ_self k))
            refine ⟨h.1, ?_⟩
            have h2 := h.2
            push_cast at h2 ⊢
            linarith

/-- On a non-empty landmark cloud the bind phase's nearest-landmark
search returns an index in `[0, length)`. -/
theorem nearest_lt_len (pos : Vec3) (landmarks : List Vec3)
    (h : landmarks ≠ []) :
    0 ≤ nearestLandmarkIdx pos landmarks ∧
      nearestLandmarkIdx pos landmarks < (landmarks.length : Int) := by
  cases landmarks with
  | nil => exact absurd rfl h
  | cons lm rest =>
      unfold nearestLandmarkIdx
      norm_num [nearestAux]
      have hb := nearestAux_bounds pos rest 1 0 (some (Vec3.distSq pos lm))
        le_rfl (by norm_num)
      have h2 := hb.2
      push_cast at h2
      constructor
      · exact hb.1
      · linarith

/-- Claim C10: binding against a non-empty LandmarkCloud of length N
produces only landmark indices in [0, N), so the update phase's
landmark lookup stays in bounds on every later frame whose cloud has
length at least N. -/
theorem claim10_bind_indices_in_bounds (landmarks : List Vec3)
    (instanceData : List OrnamentInstance) (h : landmarks ≠ [])
    (a : AnchorBinding) (ha : a ∈ bindAnchors landmarks instanceData) :
    0 ≤ a.landmarkIndex ∧ a.landmarkIndex < (landmarks.length : Int) ∧
      ∀ later : List Vec3, landmarks.length ≤ later.length →
        a.landmarkIndex.toNat < later.length := by
  unfold bindAnchors at ha
  rcases List.mem_map.mp ha with ⟨inst, -, rfl⟩
  dsimp only
  have hb := nearest_lt_len inst.position landmarks h
  refine ⟨hb.1, hb.2, fun later hle => ?_⟩
  have h1 := hb.1
  have h2 := hb.2
  omega

/-- Witness for claim C10: a single-landmark cloud and a single default
instance; the produced index is 0, in bounds for the bind cloud and for
a longer later cloud. -/
theorem claim10_witness :
    0 ≤ ((bindAnchors [(⟨0, 0, 0⟩ : Vec3)]
          ([default] : List OrnamentInstance)).getD 0 default).landmarkIndex ∧
      ((bindAnchors [(⟨0, 0, 0⟩ : Vec3)] [default]).getD 0
          default).landmarkIndex < (([(⟨0, 0, 0⟩ : Vec3)] : List Vec3).length : Int) ∧
      ((bindAnchors [(⟨0, 0, 0⟩ : Vec3)] [default]).getD 0
          default).landmarkIndex.toNat
        < ([⟨0, 0, 0⟩, ⟨1, 0, 0⟩] : List Vec3).length := by
  have h := claim10_bind_indices_in_bounds [⟨0, 0, 0⟩] [default] (by simp)
    ((bindAnchors [(⟨0, 0, 0⟩ : Vec3)] [default]).getD 0 default)
    (by simp [bindAnchors])
  exact ⟨h.1, h.2.1, h.2.2 [⟨0, 0, 0⟩, ⟨1, 0, 0⟩] (by simp)⟩

/-- Mapping over an enumerated list with a function that ignores the
index is mapping over the list. -/
theorem enumFrom_map_snd {α β : Type} (f : α → β) :
    ∀ (n : ℕ) (l : List α), (l.enumFrom n).map (fun p => f p.2) = l.map f := by
  intro n l
  induction l generalizing n with
  | nil => rfl
  | cons a t ih => simp [List.enumFrom_cons, ih]

/-- The positions the update phase writes depend only on the landmark
cloud and the bindings: `currentLandmark + offset` per binding. -/
theorem updateTransforms_positions (landmarks : List Vec3)
    (instanceData : List OrnamentInstance) (anchors : List AnchorBinding) :
    (updateTransforms landmarks instanceData anchors).map (·.position)
      = anchors.map
          (fun a => landmarks.getD a.landmarkIndex.toNat default + a.offset) := by
  unfold updateTransforms List.enum
  rw [List.map_map]
  exact enumFrom_map_snd
    (fun a => landmarks.getD a.landmarkIndex.toNat default + a.offset) 0 anchors

/-- Claim C3: if the bind phase ran against a non-empty rest-frame
cloud and the update phase then runs with every landmark translated by
the same vector delta, every bound instance's updated position is its
rest position plus delta. -/
theorem claim3_update_translation (landmarks : List Vec3) (delta : Vec3)
    (instanceData : List OrnamentInstance) (h : landmarks ≠ []) :
    (updateTransforms (landmarks.map (· + delta)) instanceData
        (bindAnchors landmarks instanceData)).map (·.position)
      = instanceData.map (fun inst => inst.position + delta) := by
  rw [updateTransforms_positions]
  unfold bindAnchors
  rw [List.map_map]
  apply List.map_congr_left
  intro inst _
  simp only [Function.comp]
  have hb := nearest_lt_len inst.position landmarks h
  have hlt : (nearestLandmarkIdx inst.position landmarks).toNat
      < landmarks.length := by omega
  have hmap : (landmarks.map (· + delta)).getD
        ((nearestLandmarkIdx inst.position landmarks).toNat) default
      = landmarks.getD ((nearestLandmarkIdx inst.position landmarks).toNat)
          default + delta := by
    rw [List.getD_eq_getElem _ _ (by simpa using hlt),
      List.getD_eq_getElem _ _ hlt, List.getElem_map]
  rw [hmap]
  ext <;> simp <;> ring

/-- Witness for claim C3: one landmark at the origin, one default
instance, translation (1, 2, 3). -/
theorem claim3_witness :
    ([(⟨0, 0, 0⟩ : Vec3)] ≠ ([] : List Vec3)) ∧
      (updateTransforms ([(⟨0, 0, 0⟩ : Vec3)].map (· + ⟨1, 2, 3⟩))
          [default] (bindAnchors [⟨0, 0, 0⟩] [default])).map (·.position)
        = ([default] : List OrnamentInstance).map
            (fun inst => inst.position + (⟨1, 2, 3⟩ : Vec3)) :=
  ⟨by simp, claim3_update_translation [⟨0, 0, 0⟩] ⟨1, 2, 3⟩ [default] (by simp)⟩

/-- The single grid candidate at density 1 is the corner (-1, -1). -/
theorem candidate_grid_one :
    candidateUV DistributionType.grid 1 0 = (-1, -1) := by
  simp only [candidateUV]
  rw [show Nat.sqrt 1 = 1 from rfl]
  norm_num [mapRange]

/-- The corner candidate is far from both eye-cutout centers. -/
theorem corner_not_cutout :
    ¬ (Real.sqrt (((-1 : ℝ) - (-0.35)) ^ 2 + ((-1 : ℝ) - 0.35) ^ 2) < 0.12 ∨
       Real.sqrt (((-1 : ℝ) - 0.35) ^ 2 + ((-1 : ℝ) - 0.35) ^ 2) < 0.12) := by
  rintro (h | h) <;> rw [Real.sqrt_lt' (by norm_num)] at h <;> norm_num at h

/-- The depth-test configuration accepts exactly its single corner
candidate. -/
theorem placeAt_depthTest :
    placeAt cfgDepthTest (some meshZ15) Mat4.id4 0
      = [acceptedInstance cfgDepthTest (some meshZ15) Mat4.id4 0] := by
  have hu : (candidateUV cfgDepthTest.distribution cfgDepthTest.density 0).1
      = -1 := by
    rw [show cfgDepthTest.distribution = DistributionType.grid from rfl,
      show cfgDepthTest.density = 1 from rfl, candidate_grid_one]
  have hv : (candidateUV cfgDepthTest.distribution cfgDepthTest.density 0).2
      = -1 := by
    rw [show cfgDepthTest.distribution = DistributionType.grid from rfl,
      show cfgDepthTest.density = 1 from rfl, candidate_grid_one]
  have hzone : ¬ ¬ checkZone
      (candidateUV cfgDepthTest.distribution cfgDepthTest.density 0).1
      (candidateUV cfgDepthTest.distribution cfgDepthTest.density 0).2
      cfgDepthTest.zone := not_not_intro trivial
  have hcut : ¬ ((cfgDepthTest.zone = ZoneType.full ∨
        cfgDepthTest.zone = ZoneType.domino) ∧
      (Real.sqrt
          (((candidateUV cfgDepthTest.distribution cfgDepthTest.density 0).1
              - (-0.35)) ^ 2 +
            ((candidateUV cfgDepthTest.distribution cfgDepthTest.density 0).2
              - 0.35) ^ 2) < 0.12 ∨
       Real.sqrt
          (((candidateUV cfgDepthTest.distribution cfgDepthTest.density 0).1
              - 0.35) ^ 2 +
            ((candidateUV cfgDepthTest.distribution cfgDepthTest.density 0).2
              - 0.35) ^ 2) < 0.12)) := by
    rintro ⟨-, hor⟩
    rw [hu, hv] at hor
    exact corner_not_cutout hor
  simp only [placeAt]
  rw [if_neg hzone, if_neg hcut]
  rw [show cfgDepthTest.symmetry = false from rfl]
  simp

/-- The full depth-test generation yields exactly the corner instance. -/
theorem gen_depthTest :
    genInstances cfgDepthTest (some meshZ15) Mat4.id4
      = [acceptedInstance cfgDepthTest (some meshZ15) Mat4.id4 0] := by
  unfold genInstances
  rw [show cfgDepthTest.density = 1 from rfl, show (1 : ℕ) = 0 + 1 from rfl]
  simp only [genLoop, List.nil_append]
  exact placeAt_depthTest

/-- The corner instance snaps to the mesh vertex at z = 1.5 (and the
zero offset leaves it there). -/
theorem accepted_depthTest_z :
    (acceptedInstance cfgDepthTest (some meshZ15) Mat4.id4 0).position.z
      = 1.5 := by
  show (Mat4.id4.applyV ⟨0, 0, 1.5⟩).z
      + ((Mat4.id4.applyV ⟨0, 0, 1.5⟩).normalize).z * 0 = 1.5
  have hz0 : (Mat4.id4.applyV ⟨0, 0, 1.5⟩).z = 1.5 := by
    simp only [Mat4.applyV, Mat4.id4]
    norm_num
  rw [mul_zero, add_zero, hz0]

/-- Counterexample to claim C5: a generated instance (grid density 1,
single-vertex target mesh at z = 1.5, zero offset, colorMode depth)
whose color's lightness is mapRange(1.5,[0,1.5],[0.2,1.0]) * 0.8 = 0.8,
not the claimed mapRange(1.5,[0,1.5],[0.2,1.0]) = 1.0. -/
theorem claim5_counterexample :
    cfgDepthTest.colorMode = ColorMode.depth ∧
      ¬ (genInstances cfgDepthTest (some meshZ15) Mat4.id4).Forall
          (fun inst => inst.color
            = ColorV.hslC 0.5 0.8 (mapRange inst.position.z 0 1.5 0.2 1.0)) := by
  refine ⟨rfl, ?_⟩
  rw [gen_depthTest]
  intro hcon
  simp only [List.forall_cons, List.Forall] at hcon
  have hp := hcon
  have hc : (acceptedInstance cfgDepthTest (some meshZ15) Mat4.id4 0).color
      = ColorV.hslC 0.5 0.8
          (mapRange
            (acceptedInstance cfgDepthTest (some meshZ15) Mat4.id4 0).position.z
            0 1.5 0.2 1.0 * 0.8) := rfl
  rw [hc, accepted_depthTest_z] at hp
  injection hp with h1 h2 h3
  unfold mapRange at h3
  norm_num at h3

/-- Each loop index appends either nothing (rejection) or the accepted
instance followed by the optional mirrored partner. -/
theorem placeAt_cases (cfg : MaskConfigL) (mesh : Option Geometry)
    (mw : Mat4) (i : ℕ) :
    placeAt cfg mesh mw i = [] ∨
      placeAt cfg mesh mw i
        = acceptedInstance cfg mesh mw i ::
            (if cfg.symmetry then [mirrorInst (acceptedInstance cfg mesh mw i)]
             else []) := by
  simp only [placeAt]
  split_ifs <;> simp

/-- Instances appended at one loop index in Depth mode carry the
fixed-hue HSL color with lightness `mapRange(z, [0,1.5], [0.2,1.0]) * 0.8`
of their own resolved z. -/
theorem placeAt_mem_color (cfg : MaskConfigL) (mesh : Option Geometry)
    (mw : Mat4) (i : ℕ) (h : cfg.colorMode = ColorMode.depth) :
    ∀ inst ∈ placeAt cfg mesh mw i,
      inst.color = ColorV.hslC 0.5 0.8
        (mapRange inst.position.z 0 1.5 0.2 1.0 * 0.8) := by
  intro inst hinst
  have hcol : (acceptedInstance cfg mesh mw i).color
      = deriveColor cfg.colorMode cfg.primaryColor
          (acceptedInstance cfg mesh mw i).position
          (acceptedInstance cfg mesh mw i).normal := rfl
  rcases placeAt_cases cfg mesh mw i with hp | hp <;> rw [hp] at hinst
  · simp at hinst
  · rcases List.mem_cons.mp hinst with rfl | hmem
    · rw [hcol, h]
      simp [deriveColor]
    · by_cases hs : cfg.symmetry = true
      · simp only [hs, if_true, List.mem_singleton] at hmem
        subst hmem
        have hmz : (mirrorInst (acceptedInstance cfg mesh mw i)).position.z
            = (acceptedInstance cfg mesh mw i).position.z := rfl
        have hmc : (mirrorInst (acceptedInstance cfg mesh mw i)).color
            = (acceptedInstance cfg mesh mw i).color := rfl
        rw [hmc, hmz, hcol, h]
        simp [deriveColor]
      · simp [hs] at hmem

/-- All instances generated up to loop index n in Depth mode satisfy
the lightness rule. -/
theorem genLoop_mem_color (cfg : MaskConfigL) (mesh : Option Geometry)
    (mw : Mat4) (h : cfg.colorMode = ColorMode.depth) :
    ∀ n, ∀ inst ∈ genLoop cfg mesh mw n,
      inst.color = ColorV.hslC 0.5 0.8
        (mapRange inst.position.z 0 1.5 0.2 1.0 * 0.8) := by
  intro n
  induction n with
  | zero => intro inst hinst; simp [genLoop] at hinst
  | succ n ih =>
      intro inst hinst
      simp only [genLoop] at hinst
      rcases List.mem_append.mp hinst with hmem | hmem
      · exact ih inst hmem
      · exact placeAt_mem_color cfg mesh mw n h inst hmem

/-- Claim C5 as amended: in colorMode Depth every generated instance's
color is the hue-fixed HSL color (hue 0.5, saturation 0.8) whose
lightness is `mapRange(z, [0,1.5], [0.2,1.0]) * 0.8` of the instance's
resolved z — i.e. z mapped linearly from [0,1.5] to [0.16,0.8], not to
[0.2,1.0]. -/
theorem claim5_depth_lightness (cfg : MaskConfigL) (mesh : Option Geometry)
    (mw : Mat4) (h : cfg.colorMode = ColorMode.depth) :
    (genInstances cfg mesh mw).Forall (fun inst =>
      inst.color = ColorV.hslC 0.5 0.8
        (mapRange inst.position.z 0 1.5 0.2 1.0 * 0.8)) := by
  rw [List.forall_iff_forall_mem]
  exact genLoop_mem_color cfg mesh mw h cfg.density

/-- Witness for claim C5's amended statement: the small default
configuration (colorMode Depth) with no target mesh. -/
theorem claim5_witness :
    smallConfig.colorMode = ColorMode.depth ∧
      (genInstances smallConfig none Mat4.id4).Forall (fun inst =>
        inst.color = ColorV.hslC 0.5 0.8
          (mapRange inst.position.z 0 1.5 0.2 1.0 * 0.8)) :=
  ⟨rfl, claim5_depth_lightness smallConfig none Mat4.id4 rfl⟩

/-- PairedMirrored lists are closed under concatenation. -/
theorem PairedMirrored.append {l1 l2 : List OrnamentInstance}
    (h1 : PairedMirrored l1) (h2 : PairedMirrored l2) :
    PairedMirrored (l1 ++ l2) := by
  induction h1 with
  | nil => simpa using h2
  | cons a l _ ih => exact PairedMirrored.cons a (l ++ l2) ih

/-- With symmetry on, every loop index appends either nothing or an
instance immediately followed by its mirrored partner. -/
theorem placeAt_paired (cfg : MaskConfigL) (mesh : Option Geometry)
    (mw : Mat4) (i : ℕ) (h : cfg.symmetry = true) :
    PairedMirrored (placeAt cfg mesh mw i) := by
  rcases placeAt_cases cfg mesh mw i with hp | hp <;> rw [hp]
  · exact PairedMirrored.nil
  · simp only [h, if_true]
    exact PairedMirrored.cons _ [] PairedMirrored.nil

/-- Claim C8: when symmetry is true the generated InstanceSet consists
of consecutive pairs: each accepted instance at (x, y, z) immediately
followed by its mirrored partner at (-x, y, z) with the same scale and
the same color (and x-negated normal). -/
theorem claim8_symmetry_pairs (cfg : MaskConfigL) (mesh : Option Geometry)
    (mw : Mat4) (h : cfg.symmetry = true) :
    PairedMirrored (genInstances cfg mesh mw) := by
  unfold genInstances
  induction cfg.density with
  | zero => exact PairedMirrored.nil
  | succ n ih =>
      simp only [genLoop]
      exact PairedMirrored.append ih (placeAt_paired cfg mesh mw n h)

/-- Witness for claim C8: the small default configuration has symmetry
on. -/
theorem claim8_witness :
    smallConfig.symmetry = true ∧
      PairedMirrored (genInstances smallConfig none Mat4.id4) :=
  ⟨rfl, claim8_symmetry_pairs smallConfig none Mat4.id4 rfl⟩

/-- Counterexample to claim C6: the grid distribution can leave the
parametric domain.  With density 8 we get dim = floor(sqrt(8)) = 2, and
index i = 7 has row = 3, so v = mapRange(3, 0, 2, -1, 1) = 2 > 1. -/
theorem claim6_counterexample :
    ¬ ((candidateUV DistributionType.grid 8 7).2 ≤ 1) := by
  have h8 : Nat.sqrt 8 = 2 := by norm_num
  have h72 : (7 : ℕ) / 2 = 3 := by norm_num
  simp only [candidateUV, h8, h72]
  unfold mapRange
  norm_num

/-- Lower bound of the grid linear map for a nonnegative cell index. -/
theorem mapRange_grid_lower (c dim : ℝ) (hdim : 0 < dim) (hc : 0 ≤ c) :
    -1 ≤ mapRange c 0 dim (-1) 1 := by
  unfold mapRange
  have h2 : 0 ≤ (c - 0) * (1 - -1) / (dim - 0) :=
    div_nonneg (by nlinarith) (by linarith)
  linarith

/-- Upper bound of the grid linear map for a cell index at most dim. -/
theorem mapRange_grid_upper (c dim : ℝ) (hdim : 0 < dim) (hc : c ≤ dim) :
    mapRange c 0 dim (-1) 1 ≤ 1 := by
  unfold mapRange
  have h2 : (c - 0) * (1 - -1) / (dim - 0) ≤ 2 := by
    rw [div_le_iff (by simpa using hdim)]
    nlinarith
  linarith

/-- Upper bound of the grid linear map for a row index at most dim+1
(the overflow rows the source can produce). -/
theorem mapRange_grid_upper_overflow (c dim : ℝ) (hdim : 0 < dim)
    (hc : c ≤ dim + 1) :
    mapRange c 0 dim (-1) 1 ≤ 1 + 2 / dim := by
  unfold mapRange
  have hmul : 2 / dim * dim = 2 := div_mul_cancel₀ 2 (ne_of_gt hdim)
  have h2 : (c - 0) * (1 - -1) / (dim - 0) ≤ 2 + 2 / dim := by
    rw [div_le_iff (by simpa using hdim)]
    nlinarith [hmul]
  linarith

/-- Claim C6 as amended: the u coordinate always lies in [-1,1]; the v
coordinate lies in [-1,1] for the random law, in [-1.2,1.2] for the
spiral law (the 1.2 aspect factor can push it past 1), and for the grid
law only in [-1, 1 + 2/dim] with dim = floor(sqrt(density)) — rows past
dim (which occur whenever density exceeds dim*(dim+1)) leave the
claimed [-1,1] domain. -/
theorem claim6_candidate_bounds (distribution : DistributionType)
    (density i : ℕ) (hd : 1 ≤ density) (hi : i < density) :
    -1 ≤ (candidateUV distribution density i).1 ∧
      (candidateUV distribution density i).1 ≤ 1 ∧
      (match distribution with
       | .random => -1 ≤ (candidateUV distribution density i).2 ∧
           (candidateUV distribution density i).2 ≤ 1
       | .spiral => -1.2 ≤ (candidateUV distribution density i).2 ∧
           (candidateUV distribution density i).2 ≤ 1.2
       | .grid => -1 ≤ (candidateUV distribution density i).2 ∧
           (candidateUV distribution density i).2
             ≤ 1 + 2 / (Nat.sqrt density : ℝ)) := by
  cases distribution with
  | grid =>
      simp only [candidateUV]
      have hdim : 0 < Nat.sqrt density := Nat.sqrt_pos.mpr hd
      have hdimR : (0 : ℝ) < (Nat.sqrt density : ℝ) := by exact_mod_cast hdim
      have hcol : i % Nat.sqrt density < Nat.sqrt density := Nat.mod_lt i hdim
      have hcolR : ((i % Nat.sqrt density : ℕ) : ℝ) ≤ (Nat.sqrt density : ℝ) := by
        exact_mod_cast hcol.le
      have hrow : i / Nat.sqrt density ≤ Nat.sqrt density + 1 := by
        have hs := Nat.lt_succ_sqrt density
        have hlt : i < (Nat.sqrt density + 2) * Nat.sqrt density := by nlinarith
        exact Nat.lt_succ_iff.mp ((Nat.div_lt_iff_lt_mul hdim).mpr hlt)
      have hrowR : ((i / Nat.sqrt density : ℕ) : ℝ)
          ≤ (Nat.sqrt density : ℝ) + 1 := by exact_mod_cast hrow
      exact ⟨mapRange_grid_lower _ _ hdimR (Nat.cast_nonneg _),
        mapRange_grid_upper _ _ hdimR hcolR,
        mapRange_grid_lower _ _ hdimR (Nat.cast_nonneg _),
        mapRange_grid_upper_overflow _ _ hdimR hrowR⟩
  | spiral =>
      simp only [candidateUV]
      have hdR : (0 : ℝ) < (density : ℝ) := by exact_mod_cast hd
      have hsd : 0 < Real.sqrt (density : ℝ) := Real.sqrt_pos.mpr hdR
      have hr0 : 0 ≤ Real.sqrt (i : ℝ) / Real.sqrt (density : ℝ) :=
        div_nonneg (Real.sqrt_nonneg _) hsd.le
      have hr1 : Real.sqrt (i : ℝ) / Real.sqrt (density : ℝ) ≤ 1 := by
        rw [div_le_one hsd]
        exact Real.sqrt_le_sqrt (by exact_mod_cast hi.le)
      have hc1 := Real.neg_one_le_cos ((i : ℝ) * 2.39996)
      have hc2 := Real.cos_le_one ((i : ℝ) * 2.39996)
      have hs1 := Real.neg_one_le_sin ((i : ℝ) * 2.39996)
      have hs2 := Real.sin_le_one ((i : ℝ) * 2.39996)
      refine ⟨?_, ?_, ?_, ?_⟩ <;> nlinarith
  | random =>
      simp only [candidateUV]
      unfold jsRandom mapRange
      have h1 := Int.fract_nonneg (Real.sin (99 + (i : ℝ)) * 10000)
      have h2 := Int.fract_lt_one (Real.sin (99 + (i : ℝ)) * 10000)
      have h3 := Int.fract_nonneg (Real.sin (99 + ((i : ℝ) + 1000)) * 10000)
      have h4 := Int.fract_lt_one (Real.sin (99 + ((i : ℝ) + 1000)) * 10000)
      refine ⟨by linarith, by linarith, by linarith, by linarith⟩

/-- Witness for claim C6's amended statement at (spiral, density 1,
index 0). -/
theorem claim6_witness :
    (1 : ℕ) ≤ 1 ∧ (0 : ℕ) < 1 ∧
      (-1 ≤ (candidateUV DistributionType.spiral 1 0).1 ∧
        (candidateUV DistributionType.spiral 1 0).1 ≤ 1 ∧
        (-1.2 ≤ (candidateUV DistributionType.spiral 1 0).2 ∧
          (candidateUV DistributionType.spiral 1 0).2 ≤ 1.2)) :=
  ⟨le_refl 1, Nat.zero_lt_one,
    claim6_candidate_bounds DistributionType.spiral 1 0 (le_refl 1)
      Nat.zero_lt_one⟩

/-- Claim C7 as amended: the origin fallback (each point's normalized
own position) is returned exactly for clouds of at most 2 points, where
a point has fewer than 2 neighbors; with exactly 3 points every point
has 2 neighbors and the cross-product estimate is used instead. -/
theorem claim7_small_cloud_fallback (positions : List ℝ)
    (h : positions.length / 3 ≤ 2) :
    computePointCloudNormals positions
      = (List.range (positions.length / 3)).map
          (fun i => Vec3.normalize (pointAt positions i)) := by
  unfold computePointCloudNormals
  apply List.map_congr_left
  intro i hi
  rw [List.mem_range] at hi
  have hn : positions.length / 3 = 0 ∨ positions.length / 3 = 1 ∨
      positions.length / 3 = 2 := by omega
  rcases hn with h0 | h1 | h2
  · omega
  · have hi0 : i = 0 := by omega
    subst hi0
    simp only [normalAt]
    rw [h1]
    rw [show neighborsOf positions 1 0 = ([] : List (ℕ × ℝ)) from rfl]
    rw [if_neg (by norm_num)]
  · have hi01 : i = 0 ∨ i = 1 := by omega
    rcases hi01 with hi0 | hi1
    · subst hi0
      simp only [normalAt]
      rw [h2]
      rw [show neighborsOf positions 2 0
          = [(1, Vec3.distSq (pointAt positions 0) (pointAt positions 1))]
          from rfl]
      rw [if_neg (by norm_num)]
    · subst hi1
      simp only [normalAt]
      rw [h2]
      rw [show neighborsOf positions 2 1
          = [(0, Vec3.distSq (pointAt positions 1) (pointAt positions 0))]
          from rfl]
      rw [if_neg (by norm_num)]

/-- The neighbor comparison made on the 3-point test cloud: the second
candidate (distance 10) does not beat the first (distance 1). -/
theorem cloud3_insert_cmp :
    ¬ (Vec3.distSq (pointAt cloud3 0) (pointAt cloud3 2)
        < Vec3.distSq (pointAt cloud3 0) (pointAt cloud3 1)) := by
  show ¬ (Vec3.distSq ⟨0, 0, 1⟩ ⟨0, 3, 0⟩ < Vec3.distSq ⟨0, 0, 1⟩ ⟨0, 0, 2⟩)
  unfold Vec3.distSq
  norm_num

/-- The neighbor list computed for point 0 of the 3-point test cloud. -/
theorem cloud3_neighbors :
    neighborsOf cloud3 3 0
      = [(1, Vec3.distSq (pointAt cloud3 0) (pointAt cloud3 1)),
         (2, Vec3.distSq (pointAt cloud3 0) (pointAt cloud3 2))] := by
  show (insertByDist (2, Vec3.distSq (pointAt cloud3 0) (pointAt cloud3 2))
      [(1, Vec3.distSq (pointAt cloud3 0) (pointAt cloud3 1))]).take 6 = _
  simp only [insertByDist]
  rw [if_neg cloud3_insert_cmp]
  rfl

/-- The cross product of the two neighbor difference vectors at point 0
of the 3-point test cloud. -/
theorem cloud3_cross :
    Vec3.cross (pointAt cloud3 1 - pointAt cloud3 0)
        (pointAt cloud3 2 - pointAt cloud3 0) = ⟨-3, 0, 0⟩ := by
  show Vec3.cross ((⟨0, 0, 2⟩ : Vec3) - ⟨0, 0, 1⟩)
      ((⟨0, 3, 0⟩ : Vec3) - ⟨0, 0, 1⟩) = ⟨-3, 0, 0⟩
  simp only [Vec3.sub_def, Vec3.cross]
  norm_num

/-- Normalizing the cross product (-3, 0, 0). -/
theorem cloud3_normalize_cross :
    Vec3.normalize ⟨-3, 0, 0⟩ = (⟨-1, 0, 0⟩ : Vec3) := by
  unfold Vec3.normalize Vec3.len
  have hl : Real.sqrt ((-3 : ℝ) ^ 2 + (0 : ℝ) ^ 2 + (0 : ℝ) ^ 2) = 3 := by
    rw [show ((-3 : ℝ) ^ 2 + (0 : ℝ) ^ 2 + (0 : ℝ) ^ 2) = 3 ^ 2 by norm_num]
    exact Real.sqrt_sq (by norm_num)
  simp only [hl]
  rw [if_neg (by norm_num : (3 : ℝ) ≠ 0)]
  norm_num

/-- Normalizing the first point of the 3-point test cloud. -/
theorem cloud3_normalize_p0 :
    Vec3.normalize (pointAt cloud3 0) = (⟨0, 0, 1⟩ : Vec3) := by
  show Vec3.normalize ⟨0, 0, 1⟩ = (⟨0, 0, 1⟩ : Vec3)
  unfold Vec3.normalize Vec3.len
  have hl : Real.sqrt ((0 : ℝ) ^ 2 + (0 : ℝ) ^ 2 + (1 : ℝ) ^ 2) = 1 := by
    rw [show ((0 : ℝ) ^ 2 + (0 : ℝ) ^ 2 + (1 : ℝ) ^ 2) = 1 ^ 2 by norm_num]
    exact Real.sqrt_sq (by norm_num)
  simp only [hl]
  rw [if_neg (by norm_num : (1 : ℝ) ≠ 0)]
  norm_num

/-- The estimated normal the source computes for point 0 of the 3-point
test cloud: the cross-product branch fires and yields (-1, 0, 0). -/
theorem cloud3_normalAt0 : normalAt cloud3 0 = ⟨-1, 0, 0⟩ := by
  simp only [normalAt]
  rw [show cloud3.length / 3 = 3 from rfl]
  rw [cloud3_neighbors]
  rw [if_pos (by simp)]
  simp only [List.getD_cons_zero, List.getD_cons_succ]
  rw [cloud3_cross, cloud3_normalize_cross]
  rw [if_neg (by
    show ¬ (Vec3.dot ⟨-1, 0, 0⟩ (⟨0, 0, 1⟩ : Vec3) < 0)
    unfold Vec3.dot
    norm_num)]

/-- Counterexample to claim C7: a cloud of exactly 3 points where the
returned normals are NOT the origin-fallback normals — point 0 of the
test cloud gets the cross-product normal (-1, 0, 0), not its normalized
position (0, 0, 1). -/
theorem claim7_counterexample :
    cloud3.length / 3 ≤ 3 ∧
      computePointCloudNormals cloud3
        ≠ (List.range (cloud3.length / 3)).map
            (fun i => Vec3.normalize (pointAt cloud3 i)) := by
  refine ⟨by norm_num [cloud3], ?_⟩
  intro hcon
  have heq : normalAt cloud3 0 = Vec3.normalize (pointAt cloud3 0) :=
    congrArg (fun l => l.getD 0 default) hcon
  rw [cloud3_normalAt0, cloud3_normalize_p0] at heq
  have hx := congrArg Vec3.x heq
  norm_num at hx

/-- Witness for claim C7's amended statement: the empty cloud. -/
theorem claim7_witness :
    ([] : List ℝ).length / 3 ≤ 2 ∧
      computePointCloudNormals []
        = (List.range (([] : List ℝ).length / 3)).map
            (fun i => Vec3.normalize (pointAt [] i)) :=
  ⟨by norm_num, claim7_small_cloud_fallback [] (by norm_num)⟩

end

end MaskTool
